import Mathlib

/-
Shallow embedding of the snapshot compaction / delta-diffing engine and the
timeout-guarded tool dispatcher of the browser-agent repository
(src/browser-agent/python/agent/browser_agent.py and
src/browser-agent/python/agent/mcp_client.py).

Modelling conventions:
- Python `str` is Lean `String`; `str.splitlines`, `str.strip`, `str.lower`,
  slicing and substring membership are modelled character-exactly by the
  `py*` functions below (ASCII case folding, the documented Python line-break
  characters).
- `hashlib.sha256(...).hexdigest()` is used by the code only as a cheap
  equality test on strings; the digest is modelled as the string itself
  (collision-free hashing), so digest equality coincides with text equality,
  which is the intended reading of the code.
- `difflib.SequenceMatcher(None, a, b).ratio()` is an external library call;
  it is modelled as an oracle parameter `ratioFn` of the pipeline (the code
  only compares the returned float with 0.85). Python floats are modelled as
  rationals.
- `asyncio` scheduling in the dispatcher is modelled by the outcome of the
  race between the wrapped task and the deadline: `none` means the deadline
  won, `some outcome` means the task finished first with that outcome.
-/

namespace BrowserAgent

/-- Boolean prefix test on character lists (used to model Python's `in`). -/
def isPrefixB : List Char → List Char → Bool
  | [], _ => true
  | _ :: _, [] => false
  | a :: as, b :: bs => a = b && isPrefixB as bs

/-- Boolean infix test on character lists (used to model Python's `in`). -/
def isInfixB (p : List Char) : List Char → Bool
  | [] => isPrefixB p []
  | c :: rest => isPrefixB p (c :: rest) || isInfixB p rest

/-- Python `sub in s` (substring containment). -/
def strContainsSub (s sub : String) : Bool :=
  isInfixB sub.data s.data

/-- Characters on which Python `str.splitlines` breaks. -/
def isPyLineBreak (c : Char) : Bool :=
  c = '\n' || c = '\r' || c = '\x0b' || c = '\x0c' ||
  c = Char.ofNat 0x1c || c = Char.ofNat 0x1d || c = Char.ofNat 0x1e ||
  c = Char.ofNat 0x85 || c = Char.ofNat 0x2028 || c = Char.ofNat 0x2029

/-- Prepend a character to the first line of a line list (helper for
`pySplitLinesL`): an empty list becomes a single one-character line. -/
def consHead (c : Char) : List (List Char) → List (List Char)
  | [] => [[c]]
  | l :: ls => (c :: l) :: ls

/-- Python `str.splitlines` on character lists: breaks on the line-break
characters, treats `"\r\n"` as a single break, and does not produce a final
empty line for a trailing terminator. -/
def pySplitLinesL : List Char → List (List Char)
  | [] => []
  | [c] => if isPyLineBreak c then [[]] else [[c]]
  | c :: c' :: rest =>
    if c = '\r' && c' = '\n' then [] :: pySplitLinesL rest
    else if isPyLineBreak c then [] :: pySplitLinesL (c' :: rest)
    else consHead c (pySplitLinesL (c' :: rest))

/-- Python `str.splitlines`. -/
def pySplitlines (s : String) : List String :=
  (pySplitLinesL s.data).map String.mk

/-- Python `"\n".join(lines)`. -/
def joinNl : List String → String
  | [] => ""
  | [l] => l
  | l :: l' :: ls => l ++ "\n" ++ joinNl (l' :: ls)

/-- Character-list version of `joinNl`, for length reasoning. -/
def joinNlData : List (List Char) → List Char
  | [] => []
  | [l] => l
  | l :: l' :: ls => l ++ '\n' :: joinNlData (l' :: ls)

/-- Characters stripped by Python `str.strip()` (whitespace). -/
def isPyStripWS (c : Char) : Bool :=
  c = ' ' || c = '\t' || c = '\n' || c = '\r' || c = '\x0b' || c = '\x0c' ||
  c = Char.ofNat 0x1c || c = Char.ofNat 0x1d || c = Char.ofNat 0x1e ||
  c = Char.ofNat 0x1f || c = Char.ofNat 0x85 || c = Char.ofNat 0xa0

/-- Python `str.strip()`. -/
def pyStrip (s : String) : String :=
  String.mk (((s.data.dropWhile isPyStripWS).reverse.dropWhile isPyStripWS).reverse)

/-- Python `str.lower()` (ASCII case folding). -/
def pyLower (s : String) : String :=
  String.mk (s.data.map Char.toLower)

/-- Python `s[:n]` for a non-negative bound. -/
def pyTake (s : String) (n : Nat) : String :=
  String.mk (s.data.take n)

/-- Model of `hashlib.sha256(s.encode("utf-8", errors="ignore")).hexdigest()`.
The code uses the digest only to compare snapshots for equality; the digest is
modelled as the string itself (collision-free hashing). -/
def sha256Hex (s : String) : String := s

/-- Ordered duplicate-free insertion into a sorted list of naturals. -/
def insSorted (i : Nat) : List Nat → List Nat
  | [] => [i]
  | j :: rest =>
    if i < j then i :: j :: rest
    else if i = j then j :: rest
    else j :: insSorted i rest

/-- Python `sorted(set(l))` for a list of naturals. -/
def sortedSet (l : List Nat) : List Nat :=
  l.foldr insSorted []

/-- Line classifier `_section_marker_kind` (browser_agent.py lines 75-99):
lowercases and trims the line; empty means no marker; then fixed substring
rules are checked in priority order. -/
def sectionMarkerKind (line : String) : String :=
  let l := pyLower (pyStrip line)
  if l = "" then ""
  else if strContainsSub l "heading" then "heading"
  else if strContainsSub l "dialog" || strContainsSub l "modal" then "dialog"
  else if strContainsSub l "header" || strContainsSub l "banner" then "header"
  else if strContainsSub l "navigation" || strContainsSub l "nav" then "navigation"
  else if strContainsSub l "main" then "main"
  else if strContainsSub l "footer" || strContainsSub l "contentinfo" then "footer"
  else if strContainsSub l "tablist" then "tablist"
  else if strContainsSub l "toolbar" then "toolbar"
  else ""

/-- `_section_title` (browser_agent.py lines 101-105): the trimmed line,
truncated to 160 characters. -/
def sectionTitle (line : String) : String :=
  let t := pyStrip line
  if t.length > 160 then pyTake t 160 else t

/-- `_is_interactive_line` (browser_agent.py lines 107-125): case-insensitive
containment check against the fixed control-role keyword vocabulary. -/
def isInteractiveLine (line : String) : Bool :=
  let l := pyLower line
  strContainsSub l "button" || strContainsSub l "link" || strContainsSub l "textbox" ||
  strContainsSub l "input" || strContainsSub l "checkbox" || strContainsSub l "radio" ||
  strContainsSub l "combobox" || strContainsSub l "select" || strContainsSub l "menu" ||
  strContainsSub l "tab" || strContainsSub l "dialog" || strContainsSub l "option"

/-- State of the sectioner loop (browser_agent.py lines 127-131):
accumulated section start indices, their titles and kinds, and the two
suppression-window pointers. -/
structure SectionerState where
  sectionStarts : List Nat
  sectionTitles : List (Nat × String)
  sectionKinds : List (Nat × String)
  lastStrongHeadingI : Option Nat
  lastMarkerI : Option Nat
deriving DecidableEq, Repr

/-- Initial sectioner state: section 0 is preset with an empty title and kind
(browser_agent.py lines 127-131). -/
def initialSectionerState : SectionerState :=
  ⟨[0], [(0, "")], [(0, "")], none, none⟩

/-- Python `last_strong_heading_i is not None and (i - last_strong_heading_i) <= 20`. -/
def strongHeadingNear (lastStrong : Option Nat) (i : Nat) : Bool :=
  match lastStrong with
  | some j => decide ((i : Int) - (j : Int) ≤ 20)
  | none => false

/-- Python `last_marker_i is not None and (i - last_marker_i) <= 6`. -/
def markerNear (lastMarker : Option Nat) (i : Nat) : Bool :=
  match lastMarker with
  | some j => decide ((i : Int) - (j : Int) ≤ 6)
  | none => false

/-- One iteration of the sectioner loop (browser_agent.py lines 133-155):
line 0 never opens a section; unmarked lines are skipped; heading/dialog
markers always open a section; weaker markers are suppressed inside the
20-line strong-heading window or the 6-line any-marker window; opening a
section records start/title/kind, sets the last-marker pointer, and updates
the last-strong-heading pointer only for heading lines. -/
def sectionStep (st : SectionerState) (i : Nat) (line : String) : SectionerState :=
  if i = 0 then st
  else
    let kind := sectionMarkerKind line
    if kind = "" then st
    else
      let opened : SectionerState :=
        { sectionStarts := st.sectionStarts ++ [i],
          sectionTitles := st.sectionTitles ++ [(i, sectionTitle line)],
          sectionKinds := st.sectionKinds ++ [(i, kind)],
          lastMarkerI := some i,
          lastStrongHeadingI := if kind = "heading" then some i else st.lastStrongHeadingI }
      if kind = "heading" ∨ kind = "dialog" then opened
      else if strongHeadingNear st.lastStrongHeadingI i || markerNear st.lastMarkerI i then st
      else opened

/-- The whole sectioner loop over the enumerated lines. -/
def runSectioner (lines : List String) : SectionerState :=
  lines.enum.foldl (fun st p => sectionStep st p.1 p.2) initialSectionerState

/-- A section `(start, end_exclusive, title, kind)` (browser_agent.py line 158). -/
structure SnapSection where
  start : Nat
  stop : Nat
  title : String
  kind : String
deriving DecidableEq, Repr

/-- Pair consecutive sorted section starts into sections; the final section
stops at the number of lines; titles and kinds come from the recorded maps
with `""` as default (browser_agent.py lines 157-163). -/
def buildSections (titles kinds : List (Nat × String)) (numLines : Nat) :
    List Nat → List SnapSection
  | [] => []
  | [s] => [⟨s, numLines, (titles.lookup s).getD "", (kinds.lookup s).getD ""⟩]
  | s :: s' :: rest =>
    ⟨s, s', (titles.lookup s).getD "", (kinds.lookup s).getD ""⟩
      :: buildSections titles kinds numLines (s' :: rest)

/-- All sections of a line list (browser_agent.py lines 157-163). -/
def sectionsOf (lines : List String) : List SnapSection :=
  let st := runSectioner lines
  buildSections st.sectionTitles st.sectionKinds lines.length (sortedSet st.sectionStarts)

/-- Line index range of a section, as the Python `range(start, end)`. -/
def sectionRange (s : SnapSection) : List Nat :=
  List.range' s.start (s.stop - s.start)

/-- Interactive line indices: for every section, every contained line that
the interactive predicate accepts (browser_agent.py lines 165-177). -/
def interactiveIndicesOf (lines : List String) : List Nat :=
  (sectionsOf lines).flatMap fun s =>
    (sectionRange s).filter fun i => isInteractiveLine (lines.getD i "")

/-- Indices of sections that contain at least one interactive line
(browser_agent.py lines 165-177). -/
def interactiveSectionIdxs (lines : List String) : List Nat :=
  ((sectionsOf lines).enum.filter fun p =>
    (sectionRange p.2).any fun i => isInteractiveLine (lines.getD i "")).map Prod.fst

/-- Indices of sections whose kind is `"dialog"` (browser_agent.py lines 165-177). -/
def dialogSectionIdxs (lines : List String) : List Nat :=
  ((sectionsOf lines).enum.filter fun p => p.2.kind = "dialog").map Prod.fst

/-- The kept-index accumulation per detail level (browser_agent.py
lines 179-199), before the final `sorted(...)`:
level 0 keeps a one-line context window around each interactive line, the
start line (and the line before it) of each interactive section, and whole
dialog sections; level 1 keeps whole interactive or dialog sections;
any other level keeps every line. -/
def keptIndexList (lines : List String) (level : Int) : List Nat :=
  if level ≤ 0 then
    ((sortedSet (interactiveIndicesOf lines)).flatMap fun i =>
      List.range' (i - 1) (min lines.length (i + 2) - (i - 1)))
    ++ ((sectionsOf lines).enum.flatMap fun p =>
        (if p.1 ∈ interactiveSectionIdxs lines then
          [p.2.start] ++ (if 1 ≤ p.2.start then [p.2.start - 1] else [])
        else [])
        ++ (if p.1 ∈ dialogSectionIdxs lines then sectionRange p.2 else []))
  else if level = 1 then
    (sectionsOf lines).enum.flatMap fun p =>
      if p.1 ∈ interactiveSectionIdxs lines ∨ p.1 ∈ dialogSectionIdxs lines then
        sectionRange p.2
      else []
  else
    List.range lines.length

/-- The surviving lines (browser_agent.py lines 201-204): the kept indices in
ascending order, or the complete line sequence when the kept set is empty. -/
def filteredLinesOf (lines : List String) (level : Int) : List String :=
  let ks := sortedSet (keptIndexList lines level)
  if ks = [] then lines else ks.map fun i => lines.getD i ""

/-- The filtered text before the size budget (browser_agent.py line 206). -/
def filteredText (text : String) (level : Int) : String :=
  joinNl (filteredLinesOf (pySplitlines text) level)

/-- The Budgeter (browser_agent.py lines 206-210): hard character truncation
to `max_chars` when positive and exceeded, with the truncated flag. -/
def budgeted (text : String) (level maxChars : Int) : String × Bool :=
  let filtered := filteredText text level
  if 0 < maxChars ∧ maxChars < (filtered.length : Int) then
    (pyTake filtered maxChars.toNat, true)
  else
    (filtered, false)

/-- Instance state of the `BrowserAgent` class relevant to one session
(browser_agent.py lines 41-60): the constructor fields and the four
session-memory fields, all initially `none`. `temperature` (a float) is
modelled as a rational. The MCP manager object itself is connection state
modelled separately by the `connected` flag of `callToolPlan`. -/
structure AgentState where
  apiKey : Option String
  apiBase : Option String
  modelName : String
  temperature : ℚ
  threadId : String
  browserUrl : Option String
  lastSnapshotText : Option String
  lastSnapshotHash : Option String
  lastSnapshotFilteredText : Option String
  lastSnapshotFilteredHash : Option String
deriving DecidableEq, Repr

/-- A fresh agent instance right after `__init__` (defaults applied). -/
def freshState : AgentState :=
  { apiKey := none, apiBase := none, modelName := "gpt-4o", temperature := 0,
    threadId := "thread-0", browserUrl := none,
    lastSnapshotText := none, lastSnapshotHash := none,
    lastSnapshotFilteredText := none, lastSnapshotFilteredHash := none }

/-- `_build_diff` (browser_agent.py lines 216-232): header line, then up to
200 added lines (new lines absent from the old line set), then up to 200
removed lines (old lines absent from the new line set). -/
def buildDiff (prevText nowText : String) : String :=
  let prevLines := pySplitlines prevText
  let nowLines := pySplitlines nowText
  let added := nowLines.filter fun l => !(prevLines.contains l)
  let removed := prevLines.filter fun l => !(nowLines.contains l)
  joinNl (["[snapshot:delta] changed"]
    ++ (if added ≠ [] then ["[added]"] ++ added.take 200 else [])
    ++ (if removed ≠ [] then ["[removed]"] ++ removed.take 200 else []))

/-- The Delta Engine decision (browser_agent.py lines 234-253), with
`ratioFn` standing for `difflib.SequenceMatcher(None, prev, now).ratio()`:
`off` emits the filtered text; with no previous hash the filtered text is
emitted; an equal hash emits the no-change sentinel; `on` always diffs;
otherwise (auto) a diff is emitted only when the change is small
(at most 60 changed lines, at most 12 percent of all lines, ratio at
least 0.85). -/
def deltaOutput (ratioFn : String → String → ℚ) (deltaMode : String)
    (prevHash : Option String) (prevText filtered filteredHash : String) : String :=
  if deltaMode = "off" then filtered
  else if prevHash.isSome ∧ prevHash = some filteredHash then "[snapshot:delta] no change"
  else if prevHash.isNone then filtered
  else if deltaMode = "on" then buildDiff prevText filtered
  else
    let ratio : ℚ := if prevText ≠ "" ∨ filtered ≠ "" then ratioFn prevText filtered else 1
    let prevLines := pySplitlines prevText
    let nowLines := pySplitlines filtered
    let changedLines := (nowLines.filter fun l => !(prevLines.contains l)).length
      + (prevLines.filter fun l => !(nowLines.contains l)).length
    let totalLines := max 1 (prevLines.length + nowLines.length)
    if changedLines ≤ 60 ∧ (changedLines : ℚ) / (totalLines : ℚ) ≤ 12 / 100 ∧
        ratio ≥ 85 / 100 then
      buildDiff prevText filtered
    else filtered

/-- The Snapshot Pipeline `_postprocess_snapshot_text` (browser_agent.py
lines 62-262): filter by level, truncate to the budget, run the delta
decision against the remembered filtered snapshot, unconditionally update the
four session-memory fields, and append the truncation marker line after any
delta processing. `text or ""` is the identity on strings and is dropped. -/
def postprocessSnapshotText (ratioFn : String → String → ℚ) (st : AgentState)
    (text : String) (level maxChars : Int) (deltaMode : String) : AgentState × String :=
  let raw := text
  let rawHash := sha256Hex raw
  let fb := budgeted raw level maxChars
  let filtered := fb.1
  let truncated := fb.2
  let filteredHash := sha256Hex filtered
  let out := deltaOutput ratioFn deltaMode st.lastSnapshotFilteredHash
    (st.lastSnapshotFilteredText.getD "") filtered filteredHash
  let st2 := { st with
    lastSnapshotText := some raw,
    lastSnapshotHash := some rawHash,
    lastSnapshotFilteredText := some filtered,
    lastSnapshotFilteredHash := some filteredHash }
  (st2, if truncated then out ++ "\n[snapshot:truncated] true" else out)

/-- Eventual outcome of the wrapped asynchronous operation: a result, or a
raised `Exception` carrying its message (mcp_client.py `tool.ainvoke`). -/
inductive TaskOutcome (R : Type) where
  | ok : R → TaskOutcome R
  | exc : String → TaskOutcome R
deriving DecidableEq, Repr

/-- What `_invoke_with_timeout` (mcp_client.py lines 50-76) produces for the
caller: `returned = .error e` models a propagated exception from the awaited
task, `.ok (.inl r)` the task's result, `.ok (.inr msg)` the diagnostic
timeout string; `cancelRequested` records whether `task.cancel()` was called. -/
structure DispatchResult (R : Type) where
  returned : Except String (R ⊕ String)
  cancelRequested : Bool
deriving Repr

/-- The diagnostic message returned on timeout (mcp_client.py lines 72-76). -/
def timeoutMessage (toolName : String) (timeoutSeconds : Nat) : String :=
  "Tool '" ++ toolName ++ "' timed out after " ++ toString timeoutSeconds ++ "s. " ++
  "The page may be loading, the target may be unclickable/unfillable, or the browser is blocked. " ++
  "Try take_snapshot and retry with a different target."

/-- The done callback `_swallow_task_result` (mcp_client.py lines 56-62): it
retrieves the abandoned task's result or exception and returns, propagating
nothing (the returned value is the exception it lets escape, always `none`). -/
def swallowTaskResult {R : Type} (t : TaskOutcome R) : Option String :=
  match t with
  | .ok _ => none
  | .exc _ => none

/-- `_invoke_with_timeout` (mcp_client.py lines 50-76): the wait is a race
between the task and the deadline; `race = some outcome` means the task
finished first and its result is awaited (or its exception propagates);
`race = none` means the deadline won, cancellation is requested and the
diagnostic timeout message is returned. -/
def invokeWithTimeout {R : Type} (toolName : String) (timeoutSeconds : Nat)
    (race : Option (TaskOutcome R)) : DispatchResult R :=
  match race with
  | some (.ok r) => ⟨.ok (.inl r), false⟩
  | some (.exc e) => ⟨.error e, false⟩
  | none => ⟨.ok (.inr (timeoutMessage toolName timeoutSeconds)), true⟩

/-- Python exceptions raised by `call_tool` (browser_agent.py lines 287-334). -/
inductive PyErr where
  | runtimeError : String → PyErr
  | valueError : String → PyErr
deriving DecidableEq, Repr

/-- The wrapper arguments popped from the args dict (browser_agent.py
lines 294-299). A missing key is `none`. For the two numeric options the
inner `Option Int` models `int(value)`: `some n` when the conversion
succeeds, `none` when it raises. For `_compact` and `_delta` the Bool is the
Python truthiness of the supplied value. -/
structure WrapperArgs where
  snapshotLevel : Option (Option Int)
  compact : Bool
  delta : Option Bool
  maxChars : Option (Option Int)
deriving DecidableEq, Repr

/-- Level derivation (browser_agent.py lines 301-310): default 1 when
compact else 2, conversion failure falls back to 1, then clamp to [0, 2]. -/
def deriveLevel (raw : Option (Option Int)) (compact : Bool) : Int :=
  let raw := match raw with
    | none => some (if compact then 1 else 2)
    | some v => v
  let lv := match raw with
    | some n => n
    | none => 1
  let lv := if lv < 0 then 0 else lv
  if lv > 2 then 2 else lv

/-- Budget derivation (browser_agent.py lines 312-321): level-tiered default
6000/12000/20000, conversion failure falls back to 12000, then clamp to
[2000, 80000]. -/
def deriveMaxChars (raw : Option (Option Int)) (level : Int) : Int :=
  let raw := match raw with
    | none => some (if level ≤ 0 then 6000 else if level = 1 then 12000 else 20000)
    | some v => v
  let mc := match raw with
    | some n => n
    | none => 12000
  let mc := if mc < 2000 then 2000 else mc
  if mc > 80000 then 80000 else mc

/-- Delta-mode derivation (browser_agent.py lines 323-326): a missing
`_delta` yields `"auto"`, a truthy value yields `"auto"`, a falsy value
yields `"off"`. -/
def deriveDeltaMode (raw : Option Bool) : String :=
  match raw with
  | none => "auto"
  | some b => if b then "auto" else "off"

/-- The dispatch decision of a `call_tool` invocation: the resolved tool name
and the wrapper options that would be applied to a snapshot result. -/
structure CallPlan where
  toolName : String
  level : Int
  maxChars : Int
  deltaMode : String
deriving DecidableEq, Repr

/-- The argument-checking and option-derivation prefix of `call_tool`
(browser_agent.py lines 287-334): not connected raises `RuntimeError`; a
blank tool name raises `ValueError("Missing tool_name")`; the wrapper
options are derived from the args; a tool name not found among the
registered tool names raises `ValueError("Unknown tool: ...")`. -/
def callToolPlan (connected : Bool) (registeredTools : List String)
    (toolName : String) (args : WrapperArgs) : Except PyErr CallPlan :=
  if !connected then
    .error (.runtimeError "Executor not initialized. Call setup() first.")
  else if pyStrip toolName = "" then
    .error (.valueError "Missing tool_name")
  else
    let level := deriveLevel args.snapshotLevel args.compact
    let maxChars := deriveMaxChars args.maxChars level
    let deltaMode := deriveDeltaMode args.delta
    match registeredTools.find? (fun n => n == toolName) with
    | none => .error (.valueError ("Unknown tool: " ++ toolName))
    | some _ => .ok ⟨toolName, level, maxChars, deltaMode⟩

/-
Helper lemmas about the embedded string primitives.
-/

theorem data_append (a b : String) : (a ++ b).data = a.data ++ b.data := rfl

theorem length_append_str (a b : String) : (a ++ b).length = a.length + b.length := by
  show (a ++ b).data.length = a.data.length + b.data.length
  rw [data_append, List.length_append]

theorem prefixB_self_append (p t : List Char) : isPrefixB p (p ++ t) = true := by
  induction p with
  | nil => rfl
  | cons a as ih => simp [isPrefixB, ih]

theorem prefixB_ext {p b : List Char} (t : List Char) (h : isPrefixB p b = true) :
    isPrefixB p (b ++ t) = true := by
  induction p generalizing b with
  | nil => rfl
  | cons a as ih =>
    cases b with
    | nil => simp [isPrefixB] at h
    | cons x xs =>
      simp only [isPrefixB, Bool.and_eq_true, decide_eq_true_eq] at h
      simp only [List.cons_append, isPrefixB, Bool.and_eq_true, decide_eq_true_eq]
      exact ⟨h.1, ih h.2⟩

theorem infixB_of_prefixB {p s : List Char} (h : isPrefixB p s = true) :
    isInfixB p s = true := by
  cases s with
  | nil => simpa [isInfixB] using h
  | cons c rest => simp [isInfixB, h]

theorem infixB_cons {p rest : List Char} (c : Char) (h : isInfixB p rest = true) :
    isInfixB p (c :: rest) = true := by
  simp [isInfixB, h]

theorem infixB_append_left {p b : List Char} (a : List Char) (h : isInfixB p b = true) :
    isInfixB p (a ++ b) = true := by
  induction a with
  | nil => simpa using h
  | cons c a' ih => simpa using infixB_cons c ih

theorem infixB_sandwich (p s t : List Char) : isInfixB p (s ++ (p ++ t)) = true :=
  infixB_append_left s (infixB_of_prefixB (prefixB_self_append p t))

theorem infixB_append_right {p b : List Char} (t : List Char) (h : isInfixB p b = true) :
    isInfixB p (b ++ t) = true := by
  induction b with
  | nil =>
    simp only [isInfixB] at h
    cases p with
    | nil => simpa using infixB_of_prefixB (p := []) (s := t) rfl
    | cons a as => simp [isPrefixB] at h
  | cons x b' ih =>
    simp only [isInfixB, Bool.or_eq_true] at h
    rcases h with h | h
    · exact infixB_of_prefixB (by simpa using prefixB_ext t h)
    · simpa using infixB_cons x (ih h)

/-
Helper lemmas about `sortedSet` and index selection.
-/

theorem insSorted_of_forall_lt {i : Nat} {l : List Nat} (h : ∀ x ∈ l, i < x) :
    insSorted i l = i :: l := by
  cases l with
  | nil => rfl
  | cons j rest => simp [insSorted, h j (List.mem_cons_self j rest)]

theorem sortedSet_pairwise_lt {l : List Nat} (h : l.Pairwise (· < ·)) :
    sortedSet l = l := by
  induction l with
  | nil => rfl
  | cons a l ih =>
    rcases List.pairwise_cons.mp h with ⟨ha, hl⟩
    show insSorted a (sortedSet l) = a :: l
    rw [ih hl, insSorted_of_forall_lt ha]

theorem sortedSet_range (n : Nat) : sortedSet (List.range n) = List.range n :=
  sortedSet_pairwise_lt (List.pairwise_lt_range n)

theorem range_map_getD {α : Type} (l : List α) (d : α) :
    (List.range l.length).map (fun i => l.getD i d) = l := by
  induction l with
  | nil => rfl
  | cons a l ih =>
    rw [List.length_cons, List.range_succ_eq_map, List.map_cons, List.map_map]
    have : (fun i => (a :: l).getD i d) ∘ Nat.succ = fun i => l.getD i d := by
      funext i
      rfl
    rw [this, ih]
    rfl

/-
Helper lemmas about `joinNl` and `pySplitlines`.
-/

theorem joinNl_map_mk : ∀ ls : List (List Char),
    joinNl (ls.map String.mk) = String.mk (joinNlData ls)
  | [] => rfl
  | [_] => rfl
  | l :: l' :: ls => by
    show String.mk l ++ "\n" ++ joinNl ((l' :: ls).map String.mk) = _
    rw [joinNl_map_mk (l' :: ls)]
    show String.mk ((l ++ ['\n']) ++ joinNlData (l' :: ls)) = _
    rw [List.append_assoc]
    rfl

theorem joinNlData_cons_nil_length (ls : List (List Char)) :
    (joinNlData ([] :: ls)).length ≤ 1 + (joinNlData ls).length := by
  cases ls with
  | nil => simp [joinNlData]
  | cons l ls' =>
    simp [joinNlData]
    omega

theorem joinNlData_consHead_length (c : Char) (ls : List (List Char)) :
    (joinNlData (consHead c ls)).length = 1 + (joinNlData ls).length := by
  match ls with
  | [] => simp [consHead, joinNlData]
  | [l] =>
    simp [consHead, joinNlData]
    omega
  | l :: l' :: ls' =>
    simp [consHead, joinNlData]
    omega

theorem pySplitLinesL_join_length : ∀ cs : List Char,
    (joinNlData (pySplitLinesL cs)).length ≤ cs.length
  | [] => by simp [pySplitLinesL, joinNlData]
  | [c] => by
    by_cases hb : isPyLineBreak c = true <;>
      simp [pySplitLinesL, hb, joinNlData]
  | c :: c' :: rest => by
    have ih1 := pySplitLinesL_join_length (c' :: rest)
    have ih2 := pySplitLinesL_join_length rest
    by_cases h1 : (c = '\r' && c' = '\n') = true
    · have h := joinNlData_cons_nil_length (pySplitLinesL rest)
      simp only [pySplitLinesL, h1, if_true, List.length_cons]
      omega
    · by_cases h2 : isPyLineBreak c = true
      · have h := joinNlData_cons_nil_length (pySplitLinesL (c' :: rest))
        show (joinNlData (pySplitLinesL (c :: c' :: rest))).length ≤ rest.length + 1 + 1
        rw [show pySplitLinesL (c :: c' :: rest)
            = [] :: pySplitLinesL (c' :: rest) by
          rw [pySplitLinesL, if_neg h1, if_pos h2]]
        simp only [List.length_cons] at ih1
        omega
      · have h := joinNlData_consHead_length c (pySplitLinesL (c' :: rest))
        show (joinNlData (pySplitLinesL (c :: c' :: rest))).length ≤ rest.length + 1 + 1
        rw [show pySplitLinesL (c :: c' :: rest)
            = consHead c (pySplitLinesL (c' :: rest)) by
          rw [pySplitLinesL, if_neg h1, if_neg h2]]
        simp only [List.length_cons] at ih1
        omega

theorem joinNl_split_length (s : String) :
    (joinNl (pySplitlines s)).length ≤ s.length := by
  show (joinNl ((pySplitLinesL s.data).map String.mk)).length ≤ s.data.length
  rw [joinNl_map_mk]
  exact pySplitLinesL_join_length s.data

theorem joinNl_ne_empty {ls : List String}
    (h : 2 ≤ ls.length ∨ ∃ l ∈ ls, l ≠ "") : joinNl ls ≠ "" := by
  match ls with
  | [] => simp at h
  | [l] =>
    have hl : l ≠ "" := by
      rcases h with h | ⟨x, hx, hne⟩
      · simp at h
      · simp at hx
        exact hx ▸ hne
    exact fun hc => hl hc
  | l :: l' :: ls' =>
    intro hc
    have : (joinNl (l :: l' :: ls')).length = 0 := by rw [hc]; rfl
    rw [show joinNl (l :: l' :: ls') = l ++ "\n" ++ joinNl (l' :: ls') from rfl,
      length_append_str, length_append_str] at this
    have h1 : ("\n" : String).length = 1 := rfl
    omega

/-
Structural lemmas about the pipeline: the two components of
`postprocessSnapshotText`, and the behaviour of the selector at level 2 and
on an empty kept set.
-/

theorem postprocess_fst (rf : String → String → ℚ) (st : AgentState) (text : String)
    (level maxChars : Int) (dm : String) :
    (postprocessSnapshotText rf st text level maxChars dm).1 =
      { st with
        lastSnapshotText := some text
        lastSnapshotHash := some (sha256Hex text)
        lastSnapshotFilteredText := some (budgeted text level maxChars).1
        lastSnapshotFilteredHash := some (sha256Hex (budgeted text level maxChars).1) } := rfl

theorem postprocess_snd (rf : String → String → ℚ) (st : AgentState) (text : String)
    (level maxChars : Int) (dm : String) :
    (postprocessSnapshotText rf st text level maxChars dm).2 =
      (if (budgeted text level maxChars).2 then
        deltaOutput rf dm st.lastSnapshotFilteredHash (st.lastSnapshotFilteredText.getD "")
          (budgeted text level maxChars).1 (sha256Hex (budgeted text level maxChars).1)
          ++ "\n[snapshot:truncated] true"
      else
        deltaOutput rf dm st.lastSnapshotFilteredHash (st.lastSnapshotFilteredText.getD "")
          (budgeted text level maxChars).1 (sha256Hex (budgeted text level maxChars).1)) := rfl

theorem keptIndexList_level2 (lines : List String) :
    keptIndexList lines 2 = List.range lines.length := by
  unfold keptIndexList
  rw [if_neg (by norm_num), if_neg (by norm_num)]

theorem filteredLinesOf_level2 (lines : List String) :
    filteredLinesOf lines 2 = lines := by
  unfold filteredLinesOf
  rw [keptIndexList_level2, sortedSet_range]
  by_cases h : List.range lines.length = []
  · rw [if_pos h]
  · rw [if_neg h, range_map_getD]

theorem filteredText_level2 (text : String) :
    filteredText text 2 = joinNl (pySplitlines text) := by
  unfold filteredText
  rw [filteredLinesOf_level2]

theorem filteredText_of_empty_kept {text : String} {level : Int}
    (hk : keptIndexList (pySplitlines text) level = []) :
    filteredText text level = joinNl (pySplitlines text) := by
  unfold filteredText filteredLinesOf
  rw [hk]
  rw [if_pos (show sortedSet [] = [] from rfl)]

theorem budgeted_not_truncated {text : String} {level maxChars : Int}
    (h : ¬(0 < maxChars ∧ maxChars < ((filteredText text level).length : Int))) :
    budgeted text level maxChars = (filteredText text level, false) := by
  unfold budgeted
  rw [if_neg h]

/-- A concrete similarity oracle (constant ratio 1) used to instantiate the
pipeline on concrete inputs; none of the instantiations below reach the
auto-mode ratio comparison. -/
def ratioConst : String → String → ℚ := fun _ _ => 1

theorem postprocess_no_trunc (rf : String → String → ℚ) (st : AgentState) (text : String)
    (level maxChars : Int) (dm : String)
    (h : ¬(0 < maxChars ∧ maxChars < ((filteredText text level).length : Int))) :
    (postprocessSnapshotText rf st text level maxChars dm).2 =
      deltaOutput rf dm st.lastSnapshotFilteredHash (st.lastSnapshotFilteredText.getD "")
        (filteredText text level) (sha256Hex (filteredText text level)) := by
  rw [postprocess_snd, budgeted_not_truncated h]
  rfl

theorem postprocess_trunc (rf : String → String → ℚ) (st : AgentState) (text : String)
    (level maxChars : Int) (dm : String)
    (h1 : 0 < maxChars) (h2 : maxChars < ((filteredText text level).length : Int)) :
    (postprocessSnapshotText rf st text level maxChars dm).2 =
      deltaOutput rf dm st.lastSnapshotFilteredHash (st.lastSnapshotFilteredText.getD "")
        (pyTake (filteredText text level) maxChars.toNat)
        (sha256Hex (pyTake (filteredText text level) maxChars.toNat))
      ++ "\n[snapshot:truncated] true" := by
  have hb : budgeted text level maxChars
      = (pyTake (filteredText text level) maxChars.toNat, true) := by
    unfold budgeted
    rw [if_pos ⟨h1, h2⟩]
  rw [postprocess_snd, hb]
  rfl

theorem deltaOutput_off (rf : String → String → ℚ) (prevHash : Option String)
    (prevText filtered filteredHash : String) :
    deltaOutput rf "off" prevHash prevText filtered filteredHash = filtered := by
  unfold deltaOutput
  rw [if_pos rfl]

theorem postprocess_fst_filteredHash (rf : String → String → ℚ) (st : AgentState)
    (text : String) (level maxChars : Int) (dm : String) :
    ((postprocessSnapshotText rf st text level maxChars dm).1).lastSnapshotFilteredHash
      = some (sha256Hex (budgeted text level maxChars).1) := rfl

/-
Claim theorems.
-/

/-- C1 (counterexample): the claim states that level-2 compaction with a
sufficient budget and delta off returns the input character for character.
On the code this is false for input `"a\n"`: the budget 100 covers the whole
input, yet the output is `"a"` (splitlines plus newline-join drops the
trailing terminator). -/
theorem C1_level2_cex :
    (("a\n".length : Int) ≤ 100) ∧
    (postprocessSnapshotText ratioConst freshState "a\n" 2 100 "off").2 ≠ "a\n" := by
  decide

/-- C1 (amended): at level 2 with delta off and a max_chars budget at least
the input length (so no truncation occurs), the pipeline returns the input's
line sequence rejoined with a newline — equal to the input exactly when the
input has no trailing line terminator and uses plain `"\n"` separators. -/
theorem C1_level2_full_text (rf : String → String → ℚ) (st : AgentState) (text : String)
    (maxChars : Int) (h : (text.length : Int) ≤ maxChars) :
    (postprocessSnapshotText rf st text 2 maxChars "off").2 = joinNl (pySplitlines text) := by
  have hlen : ((filteredText text 2).length : Int) ≤ maxChars := by
    rw [filteredText_level2]
    calc ((joinNl (pySplitlines text)).length : Int)
        ≤ (text.length : Int) := by exact_mod_cast joinNl_split_length text
      _ ≤ maxChars := h
  rw [postprocess_no_trunc _ _ _ _ _ _ (fun hc => absurd hc.2 (not_lt.mpr hlen)),
    deltaOutput_off, filteredText_level2]

/-- C1 (witness for the amended theorem): on input `"a\nb"` with budget 100,
level 2 and delta off return the rejoined line sequence. -/
theorem C1_level2_full_text_witness :
    (("a\nb".length : Int) ≤ 100) ∧
    (postprocessSnapshotText ratioConst freshState "a\nb" 2 100 "off").2
      = joinNl (pySplitlines "a\nb") :=
  ⟨by decide, C1_level2_full_text ratioConst freshState "a\nb" 100 (by decide)⟩

/-- C2 (counterexample): the claim states that whenever the filtered text
exceeds max_chars, the output before the trailing marker is the first
max_chars characters of the filtered text, in every delta mode. On the code
this is false: truncation happens before delta processing, so after a prior
call that remembered `"abc"`, a delta-on call whose truncated text is again
`"abc"` emits the no-change sentinel followed by the marker — the text
before the marker is the sentinel, not the first 3 characters `"abc"`. -/
theorem C2_truncation_cex :
    (0 < (3 : Int)) ∧ ((3 : Int) < ((filteredText "abcdef" 2).length : Int)) ∧
    (postprocessSnapshotText ratioConst
      (postprocessSnapshotText ratioConst freshState "abc" 2 2000 "off").1
      "abcdef" 2 3 "on").2
      = "[snapshot:delta] no change" ++ "\n[snapshot:truncated] true" ∧
    "[snapshot:delta] no change" ≠ pyTake (filteredText "abcdef" 2) 3 := by
  decide

/-- C2 (amended): whenever the filtered text is longer than max_chars > 0,
the output ends with the trailing marker line `"[snapshot:truncated] true"`
in every delta mode; and when delta mode is off the output before the marker
is exactly the first max_chars characters of the filtered text. -/
theorem C2_truncation_marker (rf : String → String → ℚ) (st : AgentState) (text : String)
    (level maxChars : Int) (dm : String)
    (h1 : 0 < maxChars) (h2 : maxChars < ((filteredText text level).length : Int)) :
    (∃ body, (postprocessSnapshotText rf st text level maxChars dm).2
        = body ++ "\n[snapshot:truncated] true") ∧
    (dm = "off" →
      (postprocessSnapshotText rf st text level maxChars dm).2
        = pyTake (filteredText text level) maxChars.toNat ++ "\n[snapshot:truncated] true") := by
  constructor
  · exact ⟨_, postprocess_trunc rf st text level maxChars dm h1 h2⟩
  · intro hdm
    subst hdm
    rw [postprocess_trunc rf st text level maxChars "off" h1 h2, deltaOutput_off]

/-- C2 (witness for the amended theorem): on input `"abcdef"` at level 2
with budget 3 and delta off, the output is `"abc"` followed by the marker. -/
theorem C2_truncation_marker_witness :
    (∃ body, (postprocessSnapshotText ratioConst freshState "abcdef" 2 3 "off").2
        = body ++ "\n[snapshot:truncated] true") ∧
    ("off" = "off" →
      (postprocessSnapshotText ratioConst freshState "abcdef" 2 3 "off").2
        = pyTake (filteredText "abcdef" 2) (3 : Int).toNat ++ "\n[snapshot:truncated] true") :=
  C2_truncation_marker ratioConst freshState "abcdef" 2 3 "off" (by decide) (by decide)

/-- C4: calling the pipeline twice in succession with the same raw input,
the same options and delta mode on yields the literal no-change sentinel on
the second call, provided no truncation marker applies. -/
theorem C4_delta_on_second_call (rf : String → String → ℚ) (st : AgentState) (text : String)
    (level maxChars : Int)
    (h : ¬(0 < maxChars ∧ maxChars < ((filteredText text level).length : Int))) :
    (postprocessSnapshotText rf (postprocessSnapshotText rf st text level maxChars "on").1
      text level maxChars "on").2 = "[snapshot:delta] no change" := by
  rw [postprocess_no_trunc _ _ _ _ _ _ h, postprocess_fst_filteredHash,
    budgeted_not_truncated h]
  have hcond :
      (some (sha256Hex ((filteredText text level, false) : String × Bool).1)).isSome = true ∧
        some (sha256Hex ((filteredText text level, false) : String × Bool).1)
          = some (sha256Hex (filteredText text level)) := ⟨rfl, rfl⟩
  unfold deltaOutput
  rw [if_neg (by decide : ¬(("on" : String) = "off")), if_pos hcond]

/-- C4 (witness): two successive delta-on calls on `"hello"` at level 2 with
budget 100 produce the sentinel on the second call. -/
theorem C4_delta_on_second_call_witness :
    (¬(0 < (100 : Int) ∧ (100 : Int) < ((filteredText "hello" 2).length : Int))) ∧
    (postprocessSnapshotText ratioConst
      (postprocessSnapshotText ratioConst freshState "hello" 2 100 "on").1
      "hello" 2 100 "on").2 = "[snapshot:delta] no change" :=
  ⟨by decide, C4_delta_on_second_call ratioConst freshState "hello" 2 100 (by decide)⟩

/-- C5: after every pipeline call, for every input and every delta mode
(including off), the four session-memory fields hold the new raw text, the
new raw hash, the new (possibly truncated) filtered text and the new
filtered hash, and no other instance state is modified by the compaction
(the record update leaves every other field of the state unchanged). -/
theorem C5_memory_update (rf : String → String → ℚ) (st : AgentState) (text : String)
    (level maxChars : Int) (dm : String) :
    (postprocessSnapshotText rf st text level maxChars dm).1 =
      { st with
        lastSnapshotText := some text
        lastSnapshotHash := some (sha256Hex text)
        lastSnapshotFilteredText := some (budgeted text level maxChars).1
        lastSnapshotFilteredHash := some (sha256Hex (budgeted text level maxChars).1) } := rfl

/-- C6 (counterexample): the claim states that for every non-empty input, if
the selector keeps no indices the output is non-empty. On the code this is
false for the non-empty input `"\n"`: it splits into a single empty line,
the selector keeps nothing at level 1, the fallback keeps the single empty
line, and the joined output is the empty string. -/
theorem C6_empty_output_cex :
    ("\n" : String) ≠ "" ∧
    keptIndexList (pySplitlines "\n") 1 = [] ∧
    (postprocessSnapshotText ratioConst freshState "\n" 1 2000 "off").2 = "" := by
  decide

/-- C6 (amended): if the region selector keeps no line indices, the pipeline
falls back to the complete unfiltered line sequence — with delta off and no
truncation the output is the newline-join of all input lines — and that
output is non-empty whenever the input has at least two lines or some
non-empty line (every non-empty input except a lone line terminator). -/
theorem C6_empty_kept_fallback (rf : String → String → ℚ) (st : AgentState) (text : String)
    (level maxChars : Int)
    (hk : keptIndexList (pySplitlines text) level = [])
    (hnt : ¬(0 < maxChars ∧ maxChars < ((filteredText text level).length : Int))) :
    (postprocessSnapshotText rf st text level maxChars "off").2 = joinNl (pySplitlines text) ∧
    ((2 ≤ (pySplitlines text).length ∨ ∃ l ∈ pySplitlines text, l ≠ "") →
      (postprocessSnapshotText rf st text level maxChars "off").2 ≠ "") := by
  have hout : (postprocessSnapshotText rf st text level maxChars "off").2
      = joinNl (pySplitlines text) := by
    rw [postprocess_no_trunc _ _ _ _ _ _ hnt, deltaOutput_off, filteredText_of_empty_kept hk]
  refine ⟨hout, fun hne => ?_⟩
  rw [hout]
  exact joinNl_ne_empty hne

/-- C6 (witness for the amended theorem): the input `"zzz"` matches no
section or interactive rule at level 1, falls back to the full line
sequence, and produces the non-empty output `"zzz"`. -/
theorem C6_empty_kept_fallback_witness :
    ((postprocessSnapshotText ratioConst freshState "zzz" 1 2000 "off").2
      = joinNl (pySplitlines "zzz")) ∧
    ((2 ≤ (pySplitlines "zzz").length ∨ ∃ l ∈ pySplitlines "zzz", l ≠ "") →
      (postprocessSnapshotText ratioConst freshState "zzz" 1 2000 "off").2 ≠ "") :=
  C6_empty_kept_fallback ratioConst freshState "zzz" 1 2000 (by decide) (by decide)

/-- C3 (counterexample): the claim states that a dialog marker line at
index i > 0 updates the last-strong-heading pointer to i exactly as a
heading line does. On the code this is false: after running the sectioner
over `["x", "a dialog"]`, line 1 is classified as a dialog marker and a
section is opened at 1, yet the last-strong-heading pointer is still `none`
rather than `some 1` (only `kind == "heading"` updates it). -/
theorem C3_dialog_cex :
    sectionMarkerKind "a dialog" = "dialog" ∧
    (runSectioner ["x", "a dialog"]).sectionStarts = [0, 1] ∧
    (runSectioner ["x", "a dialog"]).lastStrongHeadingI ≠ some 1 := by
  decide

/-- C3 (amended): for every line at index i > 0 whose marker kind is dialog,
the sectioner opens a new section starting at i and updates the last-marker
pointer to i, but — unlike a heading line — it leaves the last-strong-heading
pointer unchanged. -/
theorem C3_dialog_opens_section (st : SectionerState) (i : Nat) (line : String)
    (hi : i ≠ 0) (hk : sectionMarkerKind line = "dialog") :
    sectionStep st i line =
      { st with
        sectionStarts := st.sectionStarts ++ [i]
        sectionTitles := st.sectionTitles ++ [(i, sectionTitle line)]
        sectionKinds := st.sectionKinds ++ [(i, "dialog")]
        lastMarkerI := some i } := by
  have h1 : ¬(("dialog" : String) = "") := by decide
  have h3 : ¬(("dialog" : String) = "heading") := by decide
  simp only [sectionStep, hk]
  rw [if_neg hi, if_neg h1,
    if_pos (show ("dialog" : String) = "heading" ∨ True from Or.inr trivial), if_neg h3]

/-- C3 (witness for the amended theorem): the dialog line `"a dialog"` at
index 1 opens a section at 1, records the title and kind, sets the
last-marker pointer, and leaves the last-strong-heading pointer untouched. -/
theorem C3_dialog_opens_section_witness :
    sectionStep initialSectionerState 1 "a dialog" =
      { initialSectionerState with
        sectionStarts := initialSectionerState.sectionStarts ++ [1]
        sectionTitles := initialSectionerState.sectionTitles ++ [(1, sectionTitle "a dialog")]
        sectionKinds := initialSectionerState.sectionKinds ++ [(1, "dialog")]
        lastMarkerI := some 1 } :=
  C3_dialog_opens_section initialSectionerState 1 "a dialog" (by decide) (by decide)

/-- C10: a weak-kind marker line (neither heading nor dialog) that falls in
the 20-line strong-heading window or the 6-line any-marker window is
suppressed and leaves the sectioner state completely unchanged — in
particular it does not advance the last-marker or last-strong-heading
pointers, so only markers that actually open a section advance the
suppression windows. -/
theorem C10_suppressed_weak_marker (st : SectionerState) (i : Nat) (line : String)
    (hi : i ≠ 0)
    (h0 : sectionMarkerKind line ≠ "")
    (hh : sectionMarkerKind line ≠ "heading")
    (hd : sectionMarkerKind line ≠ "dialog")
    (hsup : (strongHeadingNear st.lastStrongHeadingI i || markerNear st.lastMarkerI i) = true) :
    sectionStep st i line = st := by
  simp only [sectionStep]
  rw [if_neg hi, if_neg h0, if_neg (fun h => h.elim hh hd), if_pos hsup]

/-- C10 (witness): the weak marker `"main"` at index 5, with a strong heading
recorded at index 1 (within the 20-line window), is suppressed and the
sectioner state is unchanged. -/
theorem C10_suppressed_weak_marker_witness :
    sectionStep ⟨[0, 1], [(0, ""), (1, "x heading")], [(0, ""), (1, "heading")], some 1, some 1⟩
      5 "main" =
    ⟨[0, 1], [(0, ""), (1, "x heading")], [(0, ""), (1, "heading")], some 1, some 1⟩ :=
  C10_suppressed_weak_marker
    ⟨[0, 1], [(0, ""), (1, "x heading")], [(0, ""), (1, "heading")], some 1, some 1⟩
    5 "main" (by decide) (by decide) (by decide) (by decide) (by decide)

/-- C9: the delta mode derived from the caller-supplied `_delta` argument is
`"auto"` when the argument is absent, `"auto"` when it is truthy, `"off"`
when it is falsy, and is never `"on"` — so the always-diff branch of the
delta engine cannot be selected through `call_tool` (which passes
`deriveDeltaMode args.delta` to the pipeline). -/
theorem C9_delta_mode_derivation :
    deriveDeltaMode none = "auto" ∧
    deriveDeltaMode (some true) = "auto" ∧
    deriveDeltaMode (some false) = "off" ∧
    ∀ raw : Option Bool, deriveDeltaMode raw ≠ "on" := by
  refine ⟨rfl, rfl, rfl, ?_⟩
  intro raw
  match raw with
  | none => decide
  | some true => decide
  | some false => decide

/-- C7: when the deadline wins the race (the wrapped operation has not
completed within its configured timeout), the dispatcher requests
cancellation of the still-running task and returns a string that contains
the tool's name and the words "timed out"; and the completion callback
attached to the abandoned task consumes any eventual result or exception
without propagating anything. -/
theorem C7_timeout_contract (R : Type) (toolName : String) (secs : Nat)
    (eventual : TaskOutcome R) :
    (invokeWithTimeout toolName secs (none : Option (TaskOutcome R))).cancelRequested = true ∧
    (invokeWithTimeout toolName secs (none : Option (TaskOutcome R))).returned
      = .ok (.inr (timeoutMessage toolName secs)) ∧
    strContainsSub (timeoutMessage toolName secs) toolName = true ∧
    strContainsSub (timeoutMessage toolName secs) "timed out" = true ∧
    swallowTaskResult eventual = none := by
  refine ⟨rfl, rfl, ?_, ?_, ?_⟩
  · show isInfixB toolName.data (timeoutMessage toolName secs).data = true
    unfold timeoutMessage
    simp only [data_append, List.append_assoc]
    exact infixB_sandwich _ _ _
  · show isInfixB ("timed out" : String).data (timeoutMessage toolName secs).data = true
    unfold timeoutMessage
    simp only [data_append, List.append_assoc]
    apply infixB_append_left
    apply infixB_append_left
    apply infixB_append_right
    decide
  · cases eventual <;> rfl

/-- C8: a tool name that is not among the registered tool names makes
`call_tool` fail with a `ValueError` whose message names the unknown tool,
rather than silently ignoring the call or returning a normal plan. -/
theorem C8_unknown_tool (registeredTools : List String) (toolName : String)
    (args : WrapperArgs)
    (hname : pyStrip toolName ≠ "")
    (hreg : toolName ∉ registeredTools) :
    callToolPlan true registeredTools toolName args
      = .error (.valueError ("Unknown tool: " ++ toolName)) ∧
    strContainsSub ("Unknown tool: " ++ toolName) toolName = true := by
  have hf : registeredTools.find? (fun n => n == toolName) = none := by
    rw [List.find?_eq_none]
    intro x hx
    simp only [beq_iff_eq]
    exact fun he => hreg (he ▸ hx)
  constructor
  · unfold callToolPlan
    rw [if_neg (by decide : ¬((!true) = true)), if_neg hname, hf]
  · show isInfixB toolName.data ("Unknown tool: " ++ toolName).data = true
    rw [data_append]
    have h := infixB_sandwich toolName.data ("Unknown tool: " : String).data []
    simpa using h

/-- C8 (witness): calling with the unregistered name `"foo"` against the
registry `["take_snapshot", "click"]` produces the named `ValueError`. -/
theorem C8_unknown_tool_witness :
    callToolPlan true ["take_snapshot", "click"] "foo" ⟨none, true, none, none⟩
      = .error (.valueError ("Unknown tool: " ++ "foo")) ∧
    strContainsSub ("Unknown tool: " ++ "foo") "foo" = true :=
  C8_unknown_tool ["take_snapshot", "click"] "foo" ⟨none, true, none, none⟩
    (by decide) (by decide)

end BrowserAgent
